import Mathlib

/-!
Verification development for the OptiSharp batch image processor
(`image-processor.js`).  The script reads every file of an input directory,
and for each accepted image builds a processing pipeline: EXIF reorientation,
optional resize, optional sharpen, metadata policy, conditional alpha
flattening, optional watermark composite, then encodes to the resolved output
format and accumulates run statistics.

The definitions below are a shallow embedding of that script.  Pure helpers
(`positionToGravity`, the XML escaper, the format fallback) are translated
directly; the per-file pipeline is embedded as a step-list builder; the batch
loop is embedded as a fold over directory entries whose per-file outcome
(success with sizes, or failure) is an oracle parameter, which models the
try/catch boundary around each file.  JavaScript numbers are modelled as `ℚ`
where fractional values occur (`width / 2`), byte counts as `ℕ`, and
JavaScript strings as Lean `String`/`List Char` (the script only ever
lower-cases ASCII names, so ASCII `Char.toLower` is a faithful model of
`String.prototype.toLowerCase` on the inputs that matter).
-/

namespace OptiSharp

/-! ### String helpers mirroring the JavaScript string operations -/

/-- `s.toLowerCase()` of the script, character-wise ASCII lowering. -/
def lowerString (s : String) : String :=
  String.mk (s.data.map Char.toLower)

/-- `sub` occurs as a contiguous run inside `l`. -/
def hasSubstring (sub : List Char) : List Char → Bool
  | [] => sub.isEmpty
  | c :: t => sub.isPrefixOf (c :: t) || hasSubstring sub t

/-- `s.includes(sub)` of JavaScript: substring containment test. -/
def jsIncludes (s sub : String) : Bool :=
  hasSubstring sub.data s.data

/-- `s.replace(c, '')` for a single-character pattern: JavaScript `replace`
with a string pattern removes only the first occurrence. -/
def removeFirst (c : Char) : List Char → List Char
  | [] => []
  | d :: t => if d = c then t else d :: removeFirst c t

/-! ### Format resolver (`image-processor.js`, output-format block)

```js
let outputFormat = OUTPUT_FORMAT;
if (outputFormat === 'original') {
  outputFormat = fileInfo.ext.replace('.', '').toLowerCase();
  if (outputFormat === 'jpg') outputFormat = 'jpeg';
}
const supportedOutputs = new Set(['jpeg', 'png', 'webp', 'avif', 'tiff']);
if (!supportedOutputs.has(outputFormat)) {
  outputFormat = metadata.hasAlpha ? 'png' : 'jpeg';
}
```
-/

/-- The candidate output format before the supported-set check: the configured
selector, or for `original` the source extension with its leading dot removed,
lower-cased, with `jpg` normalized to `jpeg`. -/
def formatCandidate (outputFormatCfg ext : String) : String :=
  if outputFormatCfg = "original" then
    if lowerString (String.mk (removeFirst '.' ext.data)) = "jpg" then "jpeg"
    else lowerString (String.mk (removeFirst '.' ext.data))
  else outputFormatCfg

/-- The set of formats the script will actually encode to. -/
def supportedOutputs : List String :=
  ["jpeg", "png", "webp", "avif", "tiff"]

/-- The resolved output format: the candidate when supported, otherwise the
alpha-directed fallback (`png` when the source has alpha, else `jpeg`). -/
def resolveFormat (outputFormatCfg ext : String) (hasAlpha : Bool) : String :=
  if formatCandidate outputFormatCfg ext ∈ supportedOutputs then
    formatCandidate outputFormatCfg ext
  else if hasAlpha = true then "png" else "jpeg"

/-- The accepted-extension test
`/\.(jpe?g|png|webp|gif|avif|tiff|svg)$/i.test(fileInfo.ext)`. -/
def isImageFile (ext : String) : Bool :=
  [".jpg", ".jpeg", ".png", ".webp", ".gif", ".avif", ".tiff", ".svg"].any
    (fun pat => pat.data.isSuffixOf (lowerString ext).data)

/-! ### Watermark anchor mapping (`positionToGravity`)

```js
const p = String(position || '').toLowerCase();
const gravityMap = { topleft: 'northwest', top: 'north', topright: 'northeast',
  left: 'west', center: 'center', right: 'east', bottomleft: 'southwest',
  bottom: 'south', bottomright: 'southeast' };
return gravityMap[p] || 'southeast';
```
-/

/-- What the JavaScript expression `gravityMap[p] || 'southeast'` can
evaluate to.  `gravityMap` is an object literal, so `gravityMap[p]` is a
prototype-chain lookup: besides the nine own keys it finds the inherited
`Object.prototype` members whose names are all lower-case — `constructor`
(the `Object` function) and `__proto__` (the `Object.prototype` object).
Both are truthy, so they pass through the `||` default untouched and the
expression yields a non-string object instead of a gravity name. -/
inductive JsValue where
  | str (s : String)
  | objectCtor
  | objectProto
deriving DecidableEq

/-- Position-name → gravity lookup with `southeast` default: own keys of the
object literal first, then the inherited all-lower-case `Object.prototype`
members (truthy, so not replaced by the `||` default), then `southeast`. -/
def positionToGravity (position : String) : JsValue :=
  if lowerString position = "topleft" then JsValue.str "northwest"
  else if lowerString position = "top" then JsValue.str "north"
  else if lowerString position = "topright" then JsValue.str "northeast"
  else if lowerString position = "left" then JsValue.str "west"
  else if lowerString position = "center" then JsValue.str "center"
  else if lowerString position = "right" then JsValue.str "east"
  else if lowerString position = "bottomleft" then JsValue.str "southwest"
  else if lowerString position = "bottom" then JsValue.str "south"
  else if lowerString position = "bottomright" then JsValue.str "southeast"
  else if lowerString position = "constructor" then JsValue.objectCtor
  else if lowerString position = "__proto__" then JsValue.objectProto
  else JsValue.str "southeast"

/-- Margin offsets of the image-watermark composite: the script sets
`top` when the lower-cased position contains `"top"`, else `bottom` when it
contains `"bottom"`; independently `left` when it contains `"left"`, else
`right` when it contains `"right"`.  Result is `(top, bottom, left, right)`. -/
def marginOffsets (position : String) (margin : ℚ) :
    Option ℚ × Option ℚ × Option ℚ × Option ℚ :=
  let tb : Option ℚ × Option ℚ :=
    if jsIncludes (lowerString position) "top" = true then (some margin, none)
    else if jsIncludes (lowerString position) "bottom" = true then (none, some margin)
    else (none, none)
  let lr : Option ℚ × Option ℚ :=
    if jsIncludes (lowerString position) "left" = true then (some margin, none)
    else if jsIncludes (lowerString position) "right" = true then (none, some margin)
    else (none, none)
  (tb.1, tb.2, lr.1, lr.2)

/-! ### Text-watermark geometry

```js
const fontSize = WATERMARK.fontSize || Math.max(16, Math.round(processedMetadata.width * 0.02));
if (gravity.includes('west')) { x = margin; textAnchor = 'start'; }
else if (gravity.includes('east')) { x = width - margin; textAnchor = 'end'; }
else { x = width / 2; textAnchor = 'middle'; }
if (gravity.includes('north')) { y = margin + fontSize; alignmentBaseline = 'hanging'; }
else if (gravity.includes('south')) { y = height - margin; alignmentBaseline = 'alphabetic'; }
else { y = height / 2; alignmentBaseline = 'middle'; }
```
-/

/-- JavaScript `a || b` on a possibly-absent number: `0` is falsy. -/
def jsOrQ (v : Option ℚ) (d : ℚ) : ℚ :=
  match v with
  | some x => if x = 0 then d else x
  | none => d

/-- Resolved font size of a text watermark. -/
def resolveFontSize (cfgFontSize : Option ℚ) (width : ℚ) : ℚ :=
  jsOrQ cfgFontSize ((max 16 (round (width * (0.02 : ℚ))) : ℤ) : ℚ)

/-- Horizontal anchor of the text overlay: `(x, text-anchor)`. -/
def textAnchorX (gravity : String) (width margin : ℚ) : ℚ × String :=
  if jsIncludes gravity "west" = true then (margin, "start")
  else if jsIncludes gravity "east" = true then (width - margin, "end")
  else (width / 2, "middle")

/-- Vertical anchor of the text overlay: `(y, alignment-baseline)`. -/
def textAnchorY (gravity : String) (height margin fontSize : ℚ) : ℚ × String :=
  if jsIncludes gravity "north" = true then (margin + fontSize, "hanging")
  else if jsIncludes gravity "south" = true then (height - margin, "alphabetic")
  else (height / 2, "middle")

/-! ### Text escaping and the SVG overlay template

```js
const escapeXml = (s) => String(s)
  .replace(/&/g, '&amp;').replace(/</g, '&lt;').replace(/>/g, '&gt;')
  .replace(/"/g, '&quot;').replace(/'/g, '&apos;');
```
-/

/-- One global single-character `replace` pass (`/c/g` → `r`). -/
def replaceAll (c : Char) (r : List Char) : List Char → List Char
  | [] => []
  | d :: t => (if d = c then r else [d]) ++ replaceAll c r t

/-- The apostrophe character, U+0027. -/
def apostroph : Char := Char.ofNat 39

/-- The script's `escapeXml`: five sequential global replaces, ampersand
first so the entities introduced later are not re-expanded. -/
def escapeXml (s : List Char) : List Char :=
  replaceAll apostroph "&apos;".data
    (replaceAll '"' "&quot;".data
      (replaceAll '>' "&gt;".data
        (replaceAll '<' "&lt;".data
          (replaceAll '&' "&amp;".data s))))

/-- Character-wise description of the same escaping, used to reason about
`escapeXml`: each markup-significant character maps to its entity. -/
def escChar (c : Char) : List Char :=
  if c = '&' then "&amp;".data
  else if c = '<' then "&lt;".data
  else if c = '>' then "&gt;".data
  else if c = '"' then "&quot;".data
  else if c = apostroph then "&apos;".data
  else [c]

/-- Every ampersand in the list opens one of the five XML entities the
escaper emits; an ampersand that does not is an unescaped occurrence. -/
def ampEscapedOk : List Char → Bool
  | [] => true
  | c :: t =>
    (if c = '&' then
       "amp;".data.isPrefixOf t || "lt;".data.isPrefixOf t
         || "gt;".data.isPrefixOf t || "quot;".data.isPrefixOf t
         || "apos;".data.isPrefixOf t
     else true) && ampEscapedOk t

/-- JavaScript `a || b` on a string: the empty string is falsy. -/
def jsOrStr (s d : List Char) : List Char :=
  if s = [] then d else s

/-! The SVG template of the text-watermark branch, split at its interpolation
slots.  Numeric slots (`width`, `height`, `fontSize`, `opacity`, `x`, `y`,
`angle`) take their JavaScript-rendered string; only the text slot goes
through `escapeXml`, the color and font slots are interpolated verbatim
(after the `|| 'white'` / `|| 'Arial'` defaults). -/

/-- Template up to the `width` slot. -/
def svgSeg1 : List Char := "\n              <svg width=\"".data

/-- Template between `width` and `height`. -/
def svgSeg2 : List Char := "\" height=\"".data

/-- Template between `height` and the `fill:` color slot. -/
def svgSeg3 : List Char :=
  "\">\n                <style>\n                  .text \x7b\n                    fill: ".data

/-- Template between color and font family. -/
def svgSeg4 : List Char := ";\n                    font-family: ".data

/-- Template between font family and font size. -/
def svgSeg5 : List Char := ";\n                    font-size: ".data

/-- Template between font size and opacity. -/
def svgSeg6 : List Char :=
  "px;\n                    font-weight: normal;\n                    opacity: ".data

/-- Template between opacity and the `x` attribute. -/
def svgSeg7 : List Char :=
  ";\n                  \x7d\n                </style>\n                <text\n                  x=\"".data

/-- Template between `x` and `y`. -/
def svgSeg8 : List Char := "\"\n                  y=\"".data

/-- Template between `y` and `text-anchor`. -/
def svgSeg9 : List Char := "\"\n                  text-anchor=\"".data

/-- Template between `text-anchor` and `alignment-baseline`. -/
def svgSeg10 : List Char := "\"\n                  alignment-baseline=\"".data

/-- Template between `alignment-baseline` and the rotation angle. -/
def svgSeg11 : List Char := "\"\n                  transform=\"rotate(".data

/-- Separator inside `rotate(angle, x, y)`. -/
def svgSeg12 : List Char := ", ".data

/-- Template between the rotate arguments and the escaped text. -/
def svgSeg13 : List Char := ")\"\n                  class=\"text\">".data

/-- Template after the text to the end of the document. -/
def svgSeg14 : List Char := "</text>\n              </svg>\n            ".data

/-- The generated overlay markup (`svgText` buffer of the script). -/
def svgTextMarkup (widthS heightS fontColorS fontS fontSizeS opacityS xS yS
    anchorS baselineS angleS textS : List Char) : List Char :=
  svgSeg1 ++ widthS ++ svgSeg2 ++ heightS ++ svgSeg3
    ++ jsOrStr fontColorS "white".data ++ svgSeg4
    ++ jsOrStr fontS "Arial".data ++ svgSeg5
    ++ fontSizeS ++ svgSeg6 ++ opacityS ++ svgSeg7
    ++ xS ++ svgSeg8 ++ yS ++ svgSeg9
    ++ anchorS ++ svgSeg10 ++ baselineS ++ svgSeg11
    ++ angleS ++ svgSeg12 ++ xS ++ svgSeg12 ++ yS ++ svgSeg13
    ++ escapeXml textS ++ svgSeg14

/-! ### Configuration (the constant blocks at the top of the script) -/

/-- `RESIZE` block. -/
structure ResizeCfg where
  enabled : Bool
  width : Option ℕ
  height : Option ℕ
  fit : String
deriving DecidableEq

/-- `OPTIMIZATIONS` block. -/
structure OptimizationsCfg where
  sharpen : Bool
  removeMetadata : Bool
deriving DecidableEq

/-- `WATERMARK` block. -/
structure WatermarkCfg where
  enabled : Bool
  type : String
  imagePath : String
  text : String
  font : String
  fontSize : Option ℚ
  fontColor : String
  position : String
  opacity : ℚ
  margin : ℚ
  size : ℚ
  angle : ℚ
deriving DecidableEq

/-- The whole configuration surface of the script. -/
structure Config where
  outputFormat : String
  quality : ℕ
  resize : ResizeCfg
  optimizations : OptimizationsCfg
  watermark : WatermarkCfg
deriving DecidableEq

/-- The configuration values shipped at the top of `image-processor.js`. -/
def defaultConfig : Config where
  outputFormat := "jpeg"
  quality := 80
  resize := { enabled := true, width := some 1200, height := none, fit := "inside" }
  optimizations := { sharpen := true, removeMetadata := true }
  watermark :=
    { enabled := false
      type := "text"
      imagePath := "./assets/watermark.png"
      text := "Copyright © 2025"
      font := "Arial"
      fontSize := some 20
      fontColor := "#ffffff"
      position := "bottomRight"
      opacity := 0.6
      margin := 20
      size := 0.2
      angle := 0 }

/-- The shipped configuration with watermarking switched on (its `type` is
`text` and its text is non-empty, as shipped). -/
def cfgWmText : Config :=
  { defaultConfig with watermark := { defaultConfig.watermark with enabled := true } }

/-! ### The per-file pipeline as an ordered step list

The script builds the sharp pipeline by successive calls; the list below
records those calls in the order the source makes them:
`rotate()` (always), `resize(...)` (if enabled), `sharpen()` (if enabled),
`withMetadata()` (only when metadata removal is off), `flatten(...)` (only
when the resolved output format is jpeg and the source has alpha), then the
watermark `composite(...)` (image variant when the overlay file exists, text
variant when the text is non-empty). -/

/-- One pipeline operation of the script. -/
inductive Step where
  | rotate
  | resize
  | sharpen
  | withMetadata
  | flatten
  | compositeImageWatermark
  | compositeTextWatermark
deriving DecidableEq

/-- The operation list the script applies to one file, in source order.
`fmt` is the resolved output format, `hasAlpha` the source metadata's alpha
flag, `wmImageExists` the `fs.existsSync(WATERMARK.imagePath)` result. -/
def buildPipeline (cfg : Config) (fmt : String) (hasAlpha wmImageExists : Bool) :
    List Step :=
  [Step.rotate]
    ++ (if cfg.resize.enabled = true then [Step.resize] else [])
    ++ (if cfg.optimizations.sharpen = true then [Step.sharpen] else [])
    ++ (if cfg.optimizations.removeMetadata = false then [Step.withMetadata] else [])
    ++ (if fmt = "jpeg" ∧ hasAlpha = true then [Step.flatten] else [])
    ++ (if cfg.watermark.enabled = true then
          if cfg.watermark.type = "image" ∧ wmImageExists = true then
            [Step.compositeImageWatermark]
          else if cfg.watermark.type = "text" ∧ ¬ cfg.watermark.text = "" then
            [Step.compositeTextWatermark]
          else []
        else [])

/-- Position of a step in the fixed source order of pipeline construction. -/
def stepRank : Step → ℕ
  | .rotate => 0
  | .resize => 1
  | .sharpen => 2
  | .withMetadata => 3
  | .flatten => 4
  | .compositeImageWatermark => 5
  | .compositeTextWatermark => 6

/-- The step list is strictly increasing in `stepRank`: each operation comes
after every operation the source applies earlier. -/
def stepsOrdered : List Step → Bool
  | [] => true
  | [_] => true
  | a :: b :: t => decide (stepRank a < stepRank b) && stepsOrdered (b :: t)

/-! ### The batch orchestrator

The loop body of `processImages`: directories and non-image extensions are
skipped; everything else runs inside one try/catch.  The per-file outcome is
an oracle carried by the entry: `success` with the measured input/output byte
sizes, or `failure` (with a flag telling whether execution had already passed
the `stats.watermarked++` line before throwing). -/

/-- Terminal outcome of one file's processing attempt. -/
inductive Outcome where
  | success (inputSize outputSize : ℕ)
  | failure (watermarkReached : Bool) (msg : String)
deriving DecidableEq

/-- One directory entry as the loop sees it. -/
structure Entry where
  name : String
  ext : String
  isDir : Bool
  hasAlpha : Bool
  outcome : Outcome
deriving DecidableEq

/-- The `stats` accumulator of `processImages`.  `formatCounts` mirrors the
JavaScript object as an insertion-ordered association list. -/
structure Stats where
  totalProcessed : ℕ
  totalInputSize : ℕ
  totalOutputSize : ℕ
  successCount : ℕ
  errorCount : ℕ
  skippedCount : ℕ
  formatCounts : List (String × ℕ)
  watermarked : ℕ
deriving DecidableEq

/-- The zero-initialised accumulator created at run start. -/
def initStats : Stats where
  totalProcessed := 0
  totalInputSize := 0
  totalOutputSize := 0
  successCount := 0
  errorCount := 0
  skippedCount := 0
  formatCounts := []
  watermarked := 0

/-- `if (!stats.formatCounts[f]) stats.formatCounts[f] = 0; stats.formatCounts[f]++`. -/
def bumpFormat : List (String × ℕ) → String → List (String × ℕ)
  | [], f => [(f, 1)]
  | (g, n) :: t, f => if g = f then (g, n + 1) :: t else (g, n) :: bumpFormat t f

/-- Whether the watermark branch fires for a file (and so bumps the
`watermarked` counter): watermarking enabled, and either an image watermark
whose overlay file exists, or a text watermark with non-empty text. -/
def watermarkApplies (cfg : Config) (wmImageExists : Bool) : Bool :=
  cfg.watermark.enabled
    && ((cfg.watermark.type == "image" && wmImageExists)
        || (cfg.watermark.type == "text" && !(cfg.watermark.text == "")))

/-- Console output relevant to the claims, one tag per `console.log` site. -/
inductive LogEvent where
  | noFilesFound
  | foundFiles (n : ℕ)
  | skippingDirectory (name : String)
  | skippingNonImage (name : String)
  | processing (name : String)
  | errorProcessing (name msg : String)
  | fileDone (name : String)
  | summaryReport
  | topLevelError (msg : String)
deriving DecidableEq

/-- One iteration of the batch loop over entry `e`, starting from stats `s`:
skip directories and non-image names; otherwise the try/catch either reaches
the success-only stats block or lands in the catch that bumps `errorCount`. -/
def processEntry (cfg : Config) (wmImageExists : Bool) (s : Stats) (e : Entry) :
    Stats × List LogEvent :=
  if e.isDir = true then
    ({ s with skippedCount := s.skippedCount + 1 }, [LogEvent.skippingDirectory e.name])
  else if ¬ isImageFile e.ext = true then
    ({ s with skippedCount := s.skippedCount + 1 }, [LogEvent.skippingNonImage e.name])
  else
    match e.outcome with
    | Outcome.failure wmInc msg =>
        ({ s with
            errorCount := s.errorCount + 1
            watermarked := s.watermarked + (if wmInc = true then 1 else 0) },
         [LogEvent.processing e.name, LogEvent.errorProcessing e.name msg])
    | Outcome.success inSz outSz =>
        ({ s with
            totalProcessed := s.totalProcessed + 1
            successCount := s.successCount + 1
            totalInputSize := s.totalInputSize + inSz
            totalOutputSize := s.totalOutputSize + outSz
            formatCounts :=
              bumpFormat s.formatCounts (resolveFormat cfg.outputFormat e.ext e.hasAlpha)
            watermarked :=
              s.watermarked + (if watermarkApplies cfg wmImageExists = true then 1 else 0) },
         [LogEvent.processing e.name, LogEvent.fileDone e.name])

/-- The `for (const file of files)` loop: every entry is processed, each
iteration starting from the previous iteration's stats. -/
def runBatch (cfg : Config) (wmImageExists : Bool) :
    Stats → List Entry → Stats × List LogEvent
  | s, [] => (s, [])
  | s, e :: t =>
    ((runBatch cfg wmImageExists (processEntry cfg wmImageExists s e).1 t).1,
      (processEntry cfg wmImageExists s e).2
        ++ (runBatch cfg wmImageExists (processEntry cfg wmImageExists s e).1 t).2)

/-- `processImages` around the loop: a failed directory listing is caught by
the outer try/catch (top-level error, nothing processed); an empty listing
logs the no-files message and returns before the loop and before the summary;
otherwise the loop runs and the summary report is printed. -/
def processImages (cfg : Config) (wmImageExists : Bool)
    (listing : Except String (List Entry)) : Stats × List LogEvent :=
  match listing with
  | Except.error msg => (initStats, [LogEvent.topLevelError msg])
  | Except.ok files =>
    if files.length = 0 then (initStats, [LogEvent.noFilesFound])
    else
      ((runBatch cfg wmImageExists initStats files).1,
        LogEvent.foundFiles files.length
          :: (runBatch cfg wmImageExists initStats files).2
          ++ [LogEvent.summaryReport])

/-! ## Helper lemmas -/

/-- A global single-character replace distributes over append. -/
theorem replaceAll_append (c : Char) (r : List Char) (a b : List Char) :
    replaceAll c r (a ++ b) = replaceAll c r a ++ replaceAll c r b := by
  induction a with
  | nil => simp [replaceAll]
  | cons d t ih => simp [replaceAll, ih]

/-- The whole five-pass escaper distributes over append. -/
theorem escapeXml_append (a b : List Char) :
    escapeXml (a ++ b) = escapeXml a ++ escapeXml b := by
  simp [escapeXml, replaceAll_append]

/-- On a single character the five sequential passes act like the
character-wise table `escChar`: the ampersand pass runs first, and no later
pass touches the entities it emits. -/
theorem escapeXml_singleton (c : Char) : escapeXml [c] = escChar c := by
  by_cases h1 : c = '&'
  · subst h1; decide
  · by_cases h2 : c = '<'
    · subst h2; decide
    · by_cases h3 : c = '>'
      · subst h3; decide
      · by_cases h4 : c = '"'
        · subst h4; decide
        · by_cases h5 : c = apostroph
          · subst h5; decide
          · simp [escapeXml, replaceAll, escChar, h1, h2, h3, h4, h5]

/-- Head-step unfolding of the escaper. -/
theorem escapeXml_cons (c : Char) (t : List Char) :
    escapeXml (c :: t) = escChar c ++ escapeXml t := by
  have h : c :: t = [c] ++ t := rfl
  rw [h, escapeXml_append, escapeXml_singleton]

/-- Non-membership is preserved by append. -/
theorem notMemAppend {c0 : Char} {a b : List Char} (ha : c0 ∉ a) (hb : c0 ∉ b) :
    c0 ∉ a ++ b :=
  fun h => Or.elim (List.mem_append.mp h) ha hb

/-- Prepending the `&amp;` entity keeps every ampersand escaped. -/
theorem ampOk_amp (b : List Char) (hb : ampEscapedOk b = true) :
    ampEscapedOk ("&amp;".data ++ b) = true := by
  simp [ampEscapedOk, List.isPrefixOf, hb]

/-- Prepending the `&lt;` entity keeps every ampersand escaped. -/
theorem ampOk_lt (b : List Char) (hb : ampEscapedOk b = true) :
    ampEscapedOk ("&lt;".data ++ b) = true := by
  simp [ampEscapedOk, List.isPrefixOf, hb]

/-- Prepending the `&gt;` entity keeps every ampersand escaped. -/
theorem ampOk_gt (b : List Char) (hb : ampEscapedOk b = true) :
    ampEscapedOk ("&gt;".data ++ b) = true := by
  simp [ampEscapedOk, List.isPrefixOf, hb]

/-- Prepending the `&quot;` entity keeps every ampersand escaped. -/
theorem ampOk_quot (b : List Char) (hb : ampEscapedOk b = true) :
    ampEscapedOk ("&quot;".data ++ b) = true := by
  simp [ampEscapedOk, List.isPrefixOf, hb]

/-- Prepending the `&apos;` entity keeps every ampersand escaped. -/
theorem ampOk_apos (b : List Char) (hb : ampEscapedOk b = true) :
    ampEscapedOk ("&apos;".data ++ b) = true := by
  simp [ampEscapedOk, List.isPrefixOf, hb]

/-- Prepending a non-ampersand character does not affect escapedness. -/
theorem ampOk_benign (c : Char) (hc : ¬ c = '&') (b : List Char) :
    ampEscapedOk (c :: b) = ampEscapedOk b := by
  simp [ampEscapedOk, hc]

/-- Escaper output never contains a raw `<` or `"`, and every ampersand in it
opens one of the five emitted entities. -/
theorem escapeXml_props (s : List Char) :
    ('<' ∉ escapeXml s) ∧ ('"' ∉ escapeXml s) ∧ ampEscapedOk (escapeXml s) = true := by
  induction s with
  | nil => exact ⟨by decide, by decide, by decide⟩
  | cons c t ih =>
    obtain ⟨ih1, ih2, ih3⟩ := ih
    rw [escapeXml_cons]
    by_cases h1 : c = '&'
    · subst h1
      exact ⟨notMemAppend (by decide) ih1, notMemAppend (by decide) ih2,
        by rw [show escChar '&' = "&amp;".data from rfl]; exact ampOk_amp _ ih3⟩
    · by_cases h2 : c = '<'
      · subst h2
        exact ⟨notMemAppend (by decide) ih1, notMemAppend (by decide) ih2,
          by rw [show escChar '<' = "&lt;".data by decide]; exact ampOk_lt _ ih3⟩
      · by_cases h3 : c = '>'
        · subst h3
          exact ⟨notMemAppend (by decide) ih1, notMemAppend (by decide) ih2,
            by rw [show escChar '>' = "&gt;".data by decide]; exact ampOk_gt _ ih3⟩
        · by_cases h4 : c = '"'
          · subst h4
            exact ⟨notMemAppend (by decide) ih1, notMemAppend (by decide) ih2,
              by rw [show escChar '"' = "&quot;".data by decide]; exact ampOk_quot _ ih3⟩
          · by_cases h5 : c = apostroph
            · subst h5
              exact ⟨notMemAppend (by decide) ih1, notMemAppend (by decide) ih2,
                by rw [show escChar apostroph = "&apos;".data by decide]; exact ampOk_apos _ ih3⟩
            · have he : escChar c = [c] := by simp [escChar, h1, h2, h3, h4, h5]
              rw [he]
              exact ⟨notMemAppend (fun hm => h2 ((List.mem_singleton.mp hm).symm)) ih1,
                notMemAppend (fun hm => h4 ((List.mem_singleton.mp hm).symm)) ih2,
                by rw [show ([c] ++ escapeXml t) = c :: escapeXml t from rfl,
                  ampOk_benign c h1]; exact ih3⟩

/-- The stats reached after a concatenated entry list are the stats of the
second part started from the stats of the first: each iteration only feeds
the next one, no entry can abort the fold. -/
theorem runBatch_stats_append (cfg : Config) (wmEx : Bool) (l1 l2 : List Entry) :
    ∀ s, (runBatch cfg wmEx s (l1 ++ l2)).1
      = (runBatch cfg wmEx (runBatch cfg wmEx s l1).1 l2).1 := by
  induction l1 with
  | nil => intro s; simp [runBatch]
  | cons e t ih => intro s; simp [runBatch, ih]

/-! ## Claim theorems -/

/-- Claim C1 (amended): for every processed file the pipeline applies its
operations in the fixed source order — reorientation first, then resize, then
sharpen, then metadata policy, then alpha-flattening, and the watermark
composite last: the flatten step is applied after metadata policy and before
the watermark composite, not after it.  Stated as: the step list always
starts with the reorientation and is strictly increasing in the fixed rank
that places flatten before both watermark composites. -/
theorem claim_C1 : ∀ (cfg : Config) (fmt : String) (alpha wmEx : Bool),
    (buildPipeline cfg fmt alpha wmEx).head? = some Step.rotate
    ∧ stepsOrdered (buildPipeline cfg fmt alpha wmEx) = true := by
  intro cfg fmt alpha wmEx
  unfold buildPipeline
  split_ifs <;> exact ⟨rfl, rfl⟩

/-- Claim C1, counterexample to the claimed order: with the shipped
configuration plus watermarking enabled, output format `jpeg` and an
alpha-bearing source, the plan is reorient, resize, sharpen, flatten,
watermark — the watermark composite comes after the alpha-flatten step, so
the claim that flattening happens last, after the watermark, is false. -/
theorem claim_C1_counterexample :
    buildPipeline cfgWmText "jpeg" true true
        = [Step.rotate, Step.resize, Step.sharpen, Step.flatten, Step.compositeTextWatermark]
    ∧ ¬ ((buildPipeline cfgWmText "jpeg" true true).indexOf Step.compositeTextWatermark
          < (buildPipeline cfgWmText "jpeg" true true).indexOf Step.flatten) := by
  decide

/-- Claim C2 (amended): the nine named watermark positions map to the gravity
anchor matching their name; a string whose lower-casing is neither one of the
nine keys nor an inherited all-lower-case `Object.prototype` member name
(`constructor`, `__proto__`) defaults to `southeast` (bottomRight, end/end) —
for those two inherited names the lookup instead returns the truthy inherited
member, not the default; the configured margin is set only on the edges named
by the position — `center` yields no margin offset on either axis, and each
edge/corner position yields exactly the one or two offsets its name spells
(offsets given as `(top, bottom, left, right)`). -/
theorem claim_C2 : ∀ (p : String) (m : ℚ),
    lowerString p ∉ (["topleft", "top", "topright", "left", "center", "right",
      "bottomleft", "bottom", "bottomright", "constructor", "__proto__"] : List String) →
    positionToGravity p = JsValue.str "southeast"
    ∧ positionToGravity "topLeft" = JsValue.str "northwest"
    ∧ positionToGravity "top" = JsValue.str "north"
    ∧ positionToGravity "topRight" = JsValue.str "northeast"
    ∧ positionToGravity "left" = JsValue.str "west"
    ∧ positionToGravity "center" = JsValue.str "center"
    ∧ positionToGravity "right" = JsValue.str "east"
    ∧ positionToGravity "bottomLeft" = JsValue.str "southwest"
    ∧ positionToGravity "bottom" = JsValue.str "south"
    ∧ positionToGravity "bottomRight" = JsValue.str "southeast"
    ∧ positionToGravity "constructor" = JsValue.objectCtor
    ∧ positionToGravity "__proto__" = JsValue.objectProto
    ∧ marginOffsets "topLeft" m = (some m, none, some m, none)
    ∧ marginOffsets "top" m = (some m, none, none, none)
    ∧ marginOffsets "topRight" m = (some m, none, none, some m)
    ∧ marginOffsets "left" m = (none, none, some m, none)
    ∧ marginOffsets "center" m = (none, none, none, none)
    ∧ marginOffsets "right" m = (none, none, none, some m)
    ∧ marginOffsets "bottomLeft" m = (none, some m, some m, none)
    ∧ marginOffsets "bottom" m = (none, some m, none, none)
    ∧ marginOffsets "bottomRight" m = (none, some m, none, some m) := by
  intro p m hp
  have h1 : ¬ lowerString p = "topleft" := fun h => hp (by rw [h]; decide)
  have h2 : ¬ lowerString p = "top" := fun h => hp (by rw [h]; decide)
  have h3 : ¬ lowerString p = "topright" := fun h => hp (by rw [h]; decide)
  have h4 : ¬ lowerString p = "left" := fun h => hp (by rw [h]; decide)
  have h5 : ¬ lowerString p = "center" := fun h => hp (by rw [h]; decide)
  have h6 : ¬ lowerString p = "right" := fun h => hp (by rw [h]; decide)
  have h7 : ¬ lowerString p = "bottomleft" := fun h => hp (by rw [h]; decide)
  have h8 : ¬ lowerString p = "bottom" := fun h => hp (by rw [h]; decide)
  have h9 : ¬ lowerString p = "bottomright" := fun h => hp (by rw [h]; decide)
  have h10 : ¬ lowerString p = "constructor" := fun h => hp (by rw [h]; decide)
  have h11 : ¬ lowerString p = "__proto__" := fun h => hp (by rw [h]; decide)
  exact ⟨by simp only [positionToGravity, if_neg h1, if_neg h2, if_neg h3, if_neg h4,
      if_neg h5, if_neg h6, if_neg h7, if_neg h8, if_neg h9, if_neg h10, if_neg h11],
    by decide, by decide, by decide, by decide, by decide, by decide, by decide,
    by decide, by decide, by decide, by decide,
    rfl, rfl, rfl, rfl, rfl, rfl, rfl, rfl, rfl⟩

/-- Claim C2, witness: the unrecognized position `middle` resolves to the
default gravity `southeast`. -/
theorem claim_C2_witness : positionToGravity "middle" = JsValue.str "southeast" :=
  (claim_C2 "middle" 0 (by decide)).1

/-- Claim C2, counterexample to the claimed universal default: the position
string `constructor` is not one of the nine named positions, yet the lookup
returns the truthy inherited `Object.prototype.constructor` member — not the
`southeast` (bottomRight) default the claim asserts for every unrecognized
string; likewise `__proto__` returns the inherited prototype object. -/
theorem claim_C2_counterexample :
    positionToGravity "constructor" = JsValue.objectCtor
    ∧ ¬ positionToGravity "constructor" = JsValue.str "southeast"
    ∧ positionToGravity "__proto__" = JsValue.objectProto
    ∧ ¬ positionToGravity "__proto__" = JsValue.str "southeast" := by
  decide

/-- Claim C3: for a text watermark the unset font size derives as
`max(16, round(width × 0.02))`, and the anchor point and alignment follow the
anchor class exactly: horizontal start (`west` gravities) gives
`x = margin` with alignment `start`, end (`east`) gives `x = width − margin`
with `end`, center gives `x = width / 2` with `middle`; vertical start
(`north`) gives `y = margin + fontSize` with baseline `hanging`, end
(`south`) gives `y = height − margin` with `alphabetic`, center gives
`y = height / 2` with `middle`. -/
theorem claim_C3 : ∀ (w h m fs : ℚ),
    resolveFontSize none w = ((max 16 (round (w * (0.02 : ℚ))) : ℤ) : ℚ)
    ∧ textAnchorX "northwest" w m = (m, "start")
    ∧ textAnchorX "west" w m = (m, "start")
    ∧ textAnchorX "southwest" w m = (m, "start")
    ∧ textAnchorX "northeast" w m = (w - m, "end")
    ∧ textAnchorX "east" w m = (w - m, "end")
    ∧ textAnchorX "southeast" w m = (w - m, "end")
    ∧ textAnchorX "north" w m = (w / 2, "middle")
    ∧ textAnchorX "center" w m = (w / 2, "middle")
    ∧ textAnchorX "south" w m = (w / 2, "middle")
    ∧ textAnchorY "northwest" h m fs = (m + fs, "hanging")
    ∧ textAnchorY "north" h m fs = (m + fs, "hanging")
    ∧ textAnchorY "northeast" h m fs = (m + fs, "hanging")
    ∧ textAnchorY "southwest" h m fs = (h - m, "alphabetic")
    ∧ textAnchorY "south" h m fs = (h - m, "alphabetic")
    ∧ textAnchorY "southeast" h m fs = (h - m, "alphabetic")
    ∧ textAnchorY "west" h m fs = (h / 2, "middle")
    ∧ textAnchorY "center" h m fs = (h / 2, "middle")
    ∧ textAnchorY "east" h m fs = (h / 2, "middle") := by
  intro w h m fs
  exact ⟨rfl, rfl, rfl, rfl, rfl, rfl, rfl, rfl, rfl, rfl, rfl, rfl, rfl, rfl,
    rfl, rfl, rfl, rfl, rfl⟩

/-- Claim C4: the watermark text is escaped before being embedded in the
overlay markup — the escaped text contains no raw `<`, no raw `"`, every
ampersand in it opens one of the five emitted entities, and the generated
markup embeds exactly this escaped form of the text. -/
theorem claim_C4 : ∀ (ts ws hs cs fnt fss os xs ys anc bas ang : List Char),
    ('<' ∉ escapeXml ts) ∧ ('"' ∉ escapeXml ts)
    ∧ ampEscapedOk (escapeXml ts) = true
    ∧ ∃ u v, svgTextMarkup ws hs cs fnt fss os xs ys anc bas ang ts
        = u ++ escapeXml ts ++ v := by
  intro ts ws hs cs fnt fss os xs ys anc bas ang
  obtain ⟨p1, p2, p3⟩ := escapeXml_props ts
  refine ⟨p1, p2, p3,
    svgSeg1 ++ ws ++ svgSeg2 ++ hs ++ svgSeg3 ++ jsOrStr cs "white".data
      ++ svgSeg4 ++ jsOrStr fnt "Arial".data ++ svgSeg5 ++ fss ++ svgSeg6 ++ os
      ++ svgSeg7 ++ xs ++ svgSeg8 ++ ys ++ svgSeg9 ++ anc ++ svgSeg10 ++ bas
      ++ svgSeg11 ++ ang ++ svgSeg12 ++ xs ++ svgSeg12 ++ ys ++ svgSeg13,
    svgSeg14, ?_⟩
  simp [svgTextMarkup, List.append_assoc]

/-- Claim C5: format resolution always lands in the supported set; when the
candidate (the configured selector, or for `original` the normalized
lower-cased extension with `jpg` → `jpeg`) is unsupported it falls back to
`png` when the source has alpha and `jpeg` otherwise; normalization examples
for case-insensitivity. -/
theorem claim_C5 : ∀ (sel ext : String) (a : Bool),
    resolveFormat sel ext a ∈ supportedOutputs
    ∧ (formatCandidate sel ext ∉ supportedOutputs →
        resolveFormat sel ext a = (if a = true then "png" else "jpeg"))
    ∧ formatCandidate "original" ".JpG" = "jpeg"
    ∧ formatCandidate "original" ".PNG" = "png" := by
  intro sel ext a
  refine ⟨?_, ?_, by decide, by decide⟩
  · unfold resolveFormat
    split_ifs with h ha
    · exact h
    · decide
    · decide
  · intro h
    unfold resolveFormat
    rw [if_neg h]

/-- Claim C5, witness: an `svg` source under the `original` selector resolves
to `png` with alpha and `jpeg` without, and both are supported. -/
theorem claim_C5_witness :
    resolveFormat "original" ".svg" true = "png"
    ∧ resolveFormat "original" ".svg" false = "jpeg" :=
  ⟨by have h := (claim_C5 "original" ".svg" true).2.1 (by decide); simpa using h,
   by have h := (claim_C5 "original" ".svg" false).2.1 (by decide); simpa using h⟩

/-- Claim C6: the alpha-flatten step is in the plan exactly when the resolved
output format is `jpeg` and the source metadata carries alpha; for every
other resolved format it is absent even when alpha is present. -/
theorem claim_C6 : ∀ (cfg : Config) (ext : String) (alpha wmEx : Bool),
    Step.flatten ∈ buildPipeline cfg (resolveFormat cfg.outputFormat ext alpha) alpha wmEx
      ↔ (resolveFormat cfg.outputFormat ext alpha = "jpeg" ∧ alpha = true) := by
  intro cfg ext alpha wmEx
  generalize resolveFormat cfg.outputFormat ext alpha = fmt
  unfold buildPipeline
  split_ifs <;> simp_all

/-- Claim C7: a failing file only bumps the error count of that iteration and
the batch fold continues through any concatenation of entries (no per-file
failure aborts the loop); only the directory-listing failure path terminates
the run, caught at top level with nothing processed. -/
theorem claim_C7 : ∀ (cfg : Config) (wmEx : Bool) (s : Stats) (l1 l2 : List Entry)
    (e : Entry) (wmInc : Bool) (msg em : String),
    e.isDir = false → isImageFile e.ext = true → e.outcome = Outcome.failure wmInc msg →
    (runBatch cfg wmEx s (l1 ++ l2)).1
        = (runBatch cfg wmEx (runBatch cfg wmEx s l1).1 l2).1
    ∧ (processEntry cfg wmEx s e).1.errorCount = s.errorCount + 1
    ∧ processImages cfg wmEx (Except.error em)
        = (initStats, [LogEvent.topLevelError em]) := by
  intro cfg wmEx s l1 l2 e wmInc msg em hdir himg hout
  refine ⟨runBatch_stats_append cfg wmEx l1 l2 s, ?_, rfl⟩
  obtain ⟨name, ext, isDir, hasAlpha, outcome⟩ := e
  simp only at hdir himg hout
  subst hdir hout
  simp [processEntry, himg]

/-- Claim C7, witness: a failing `.jpg` entry increments the error count from
the zero-initialised stats. -/
theorem claim_C7_witness :
    (processEntry defaultConfig false initStats
        { name := "a.jpg", ext := ".jpg", isDir := false, hasAlpha := false,
          outcome := Outcome.failure false "boom" }).1.errorCount
      = initStats.errorCount + 1 :=
  (claim_C7 defaultConfig false initStats [] []
    { name := "a.jpg", ext := ".jpg", isDir := false, hasAlpha := false,
      outcome := Outcome.failure false "boom" }
    false "boom" "x" rfl (by decide) rfl).2.1

/-- Claim C8: on a file failure the processed count, success count, per-format
counts and byte totals are unchanged and the error count increments by one;
on success those fields are updated (processed and succeeded by one, the
resolved format's count bumped, byte totals by the measured sizes) and the
error count is unchanged. -/
theorem claim_C8 : ∀ (cfg : Config) (wmEx : Bool) (s : Stats) (e e2 : Entry)
    (wmInc : Bool) (msg : String) (inSz outSz : ℕ),
    e.isDir = false → isImageFile e.ext = true → e.outcome = Outcome.failure wmInc msg →
    e2.isDir = false → isImageFile e2.ext = true → e2.outcome = Outcome.success inSz outSz →
    ((processEntry cfg wmEx s e).1.totalProcessed = s.totalProcessed
      ∧ (processEntry cfg wmEx s e).1.successCount = s.successCount
      ∧ (processEntry cfg wmEx s e).1.formatCounts = s.formatCounts
      ∧ (processEntry cfg wmEx s e).1.totalInputSize = s.totalInputSize
      ∧ (processEntry cfg wmEx s e).1.totalOutputSize = s.totalOutputSize
      ∧ (processEntry cfg wmEx s e).1.errorCount = s.errorCount + 1)
    ∧ ((processEntry cfg wmEx s e2).1.totalProcessed = s.totalProcessed + 1
      ∧ (processEntry cfg wmEx s e2).1.successCount = s.successCount + 1
      ∧ (processEntry cfg wmEx s e2).1.formatCounts
          = bumpFormat s.formatCounts (resolveFormat cfg.outputFormat e2.ext e2.hasAlpha)
      ∧ (processEntry cfg wmEx s e2).1.totalInputSize = s.totalInputSize + inSz
      ∧ (processEntry cfg wmEx s e2).1.totalOutputSize = s.totalOutputSize + outSz
      ∧ (processEntry cfg wmEx s e2).1.errorCount = s.errorCount) := by
  intro cfg wmEx s e e2 wmInc msg inSz outSz hdir himg hout hdir2 himg2 hout2
  constructor
  · obtain ⟨name, ext, isDir, hasAlpha, outcome⟩ := e
    simp only at hdir himg hout
    subst hdir hout
    simp [processEntry, himg]
  · obtain ⟨name, ext, isDir, hasAlpha, outcome⟩ := e2
    simp only at hdir2 himg2 hout2
    subst hdir2 hout2
    simp [processEntry, himg2]

/-- Claim C8, witness: one failing and one succeeding `.jpg` entry from the
zero-initialised stats — failure leaves the success count at zero, success
raises it to one. -/
theorem claim_C8_witness :
    (processEntry defaultConfig false initStats
        { name := "a.jpg", ext := ".jpg", isDir := false, hasAlpha := false,
          outcome := Outcome.failure false "bad" }).1.successCount = initStats.successCount
    ∧ (processEntry defaultConfig false initStats
        { name := "b.jpg", ext := ".jpg", isDir := false, hasAlpha := false,
          outcome := Outcome.success 100 40 }).1.successCount
        = initStats.successCount + 1 := by
  have h := claim_C8 defaultConfig false initStats
    { name := "a.jpg", ext := ".jpg", isDir := false, hasAlpha := false,
      outcome := Outcome.failure false "bad" }
    { name := "b.jpg", ext := ".jpg", isDir := false, hasAlpha := false,
      outcome := Outcome.success 100 40 }
    false "bad" 100 40 rfl (by decide) rfl rfl (by decide) rfl
  exact ⟨h.1.2.1, h.2.2.1⟩

/-- Claim C9 (amended): an empty input directory logs the no-files message
and terminates without a crash, all run statistics remaining zero — but the
run-end summary report is not rendered on this path: the function returns
before the loop and before the summary block. -/
theorem claim_C9 : ∀ (cfg : Config) (wmEx : Bool),
    processImages cfg wmEx (Except.ok []) = (initStats, [LogEvent.noFilesFound])
    ∧ initStats.totalProcessed = 0 ∧ initStats.successCount = 0
    ∧ initStats.errorCount = 0 ∧ initStats.skippedCount = 0
    ∧ initStats.totalInputSize = 0 ∧ initStats.totalOutputSize = 0
    ∧ initStats.watermarked = 0 ∧ initStats.formatCounts = [] := by
  intro cfg wmEx
  exact ⟨rfl, rfl, rfl, rfl, rfl, rfl, rfl, rfl, rfl⟩

/-- Claim C9, counterexample to the claimed report rendering: on the empty
listing the run logs the no-files message but the summary report event is not
among the emitted logs — the claim that the run-end report is still rendered
is false. -/
theorem claim_C9_counterexample :
    LogEvent.noFilesFound ∈ (processImages defaultConfig false (Except.ok [])).2
    ∧ LogEvent.summaryReport ∉ (processImages defaultConfig false (Except.ok [])).2 := by
  decide

/-- Claim C10: only the watermark text goes through the escaper — the
configured font color (and font family) are interpolated verbatim into the
overlay markup, so a color value consisting of a bare ampersand yields
markup with an unescaped ampersand. -/
theorem claim_C10 : (∀ (ws hs cs fnt fss os xs ys anc bas ang ts : List Char),
      ¬ cs = [] →
      ∃ u v, svgTextMarkup ws hs cs fnt fss os xs ys anc bas ang ts = u ++ cs ++ v)
    ∧ ampEscapedOk (svgTextMarkup "600".data "400".data "&".data "Arial".data
        "16".data "0.6".data "20".data "380".data "end".data "alphabetic".data
        "0".data "hi".data) = false := by
  constructor
  · intro ws hs cs fnt fss os xs ys anc bas ang ts hcs
    refine ⟨svgSeg1 ++ ws ++ svgSeg2 ++ hs ++ svgSeg3,
      svgSeg4 ++ jsOrStr fnt "Arial".data ++ svgSeg5 ++ fss ++ svgSeg6 ++ os
        ++ svgSeg7 ++ xs ++ svgSeg8 ++ ys ++ svgSeg9 ++ anc ++ svgSeg10 ++ bas
        ++ svgSeg11 ++ ang ++ svgSeg12 ++ xs ++ svgSeg12 ++ ys ++ svgSeg13
        ++ escapeXml ts ++ svgSeg14, ?_⟩
    simp [svgTextMarkup, jsOrStr, hcs, List.append_assoc]
  · decide

/-- Claim C10, witness: a non-empty font color appears verbatim in the
generated markup. -/
theorem claim_C10_witness :
    ∃ u v, svgTextMarkup "600".data "400".data "#fff".data "Arial".data
        "16".data "0.6".data "20".data "380".data "end".data "alphabetic".data
        "0".data "hi".data = u ++ "#fff".data ++ v :=
  claim_C10.1 "600".data "400".data "#fff".data "Arial".data "16".data
    "0.6".data "20".data "380".data "end".data "alphabetic".data "0".data
    "hi".data (by decide)

end OptiSharp
